import Mathlib

/-!
Verification of the namespace-policy engine of `libnativeloader`
(`library_namespaces.cpp`): origin classification from a dex path,
per-classloader namespace creation with its linking sequence, the
registry of classloader namespaces, and the one-time bootstrap of the
anonymous namespace.

The C++ code is shallowly embedded: each C++ function becomes a Lean
definition of the same name; the external linker/JNI primitives
(namespace create/link, `dlopen`, native-bridge calls, classloader
parent lookup) are parameters supplied as records of functions, since
they are outside the translated unit.
-/

namespace NativeLoader

/-- Build-time `LIB` macro: the per-ABI library directory leaf
("lib" on 32-bit devices, "lib64" on 64-bit); fixed here to one ABI. -/
def LIB : String := "lib64"

/-- `kVendorNamespaceName`: name of the exported vendor ("sphal") namespace. -/
def kVendorNamespaceName : String := "sphal"

/-- `kVndkNamespaceName`. -/
def kVndkNamespaceName : String := "vndk"

/-- `kRuntimeNamespaceName`. -/
def kRuntimeNamespaceName : String := "runtime"

/-- `kClassloaderNamespaceName`: label of an ordinary app classloader namespace. -/
def kClassloaderNamespaceName : String := "classloader-namespace"

/-- `kVendorClassloaderNamespaceName`: label of an unbundled vendor/product
app classloader namespace. -/
def kVendorClassloaderNamespaceName : String := "vendor-classloader-namespace"

/-- `kWhitelistedDirectories`: base permitted path. -/
def kWhitelistedDirectories : String := "/data:/mnt/expand"

/-- `kVendorLibPath` = `"/vendor/" LIB`. -/
def kVendorLibPath : String := "/vendor/" ++ LIB

/-- `kProductLibPath` = `"/product/" LIB ":/system/product/" LIB`. -/
def kProductLibPath : String := "/product/" ++ LIB ++ ":/system/product/" ++ LIB

/-! ### The two dex-path regexes

`kVendorDexPathRegex  = (^|:)/vendor/`
`kProductDexPathRegex = (^|:)(/system)?/product/`

`std::regex_search` looks for a match anywhere in the subject string, so
each regex asks: does the literal pattern occur either at the start of
the string or immediately after a ':'?  We model this with an executable
scanner over the character list, and later prove it equivalent to the
declarative "occurs at a boundary" property used in the claims. -/

/-- Does `pat` occur as an initial segment of `s`? -/
def startsWithList : List Char → List Char → Bool
  | [], _ => true
  | _ :: _, [] => false
  | c :: cs, d :: ds => c == d && startsWithList cs ds

/-- Does `pat` occur immediately after some ':' inside `s`? -/
def afterColon (pat : List Char) : List Char → Bool
  | [] => false
  | c :: rest => (c == ':' && startsWithList pat rest) || afterColon pat rest

/-- `std::regex_search(s, "(^|:)" ++ pat)` for a literal `pat`. -/
def boundaryMatch (pat s : List Char) : Bool :=
  startsWithList pat s || afterColon pat s

/-- `std::regex_search(s, kVendorDexPathRegex)`. -/
def vendorMatch (s : String) : Bool :=
  boundaryMatch "/vendor/".toList s.toList

/-- `std::regex_search(s, kProductDexPathRegex)`: the optional `(/system)?`
group makes the regex an alternation of two literal boundary patterns. -/
def productMatch (s : String) : Bool :=
  boundaryMatch "/product/".toList s.toList ||
    boundaryMatch "/system/product/".toList s.toList

/-- Split a character list on ':' (the word list is never empty). -/
def splitCols : List Char → List (List Char)
  | [] => [[]]
  | c :: rest =>
    match splitCols rest with
    | [] => [[]]
    | w :: ws => if c = ':' then [] :: w :: ws else (c :: w) :: ws

/-- `android::base::Split(s, ":")`: the colon-separated components of
`s`, at least one (possibly empty) component. -/
def androidBaseSplit (s : String) : List String :=
  (splitCols s.toList).map (fun w => String.mk w)

/-- `ApkOrigin` enum. -/
inductive ApkOrigin where
  | default
  | vendor
  | product
deriving DecidableEq

/-- Result of a classification that may hit `LOG_ALWAYS_FATAL_IF`:
either an origin reached the `return`, or the process aborted. -/
inductive ClassifyResult where
  | ok (origin : ApkOrigin)
  | fatal (msg : String)
deriving DecidableEq

/-- `GetApkOriginFromDexPath`: starts from `APK_ORIGIN_DEFAULT`; a vendor
regex hit sets vendor; a product regex hit then aborts if vendor was
already set, else sets product.  A null dex path skips everything. -/
def GetApkOriginFromDexPath : Option String → ClassifyResult
  | none => .ok .default
  | some s =>
    let apk_origin := if vendorMatch s then ApkOrigin.vendor else ApkOrigin.default
    if productMatch s then
      if apk_origin = ApkOrigin.vendor then
        .fatal ("Dex path contains both vendor and product partition : " ++ s)
      else
        .ok .product
    else
      .ok apk_origin

/-! ### State, configuration and external primitives

`NativeLoaderNamespace` values are opaque handles; classloader objects
are opaque JNI references compared by `IsSameObject`.  Both become
`Nat` identities here. -/

/-- Opaque `NativeLoaderNamespace` handle. -/
abbrev NS := Nat

/-- Mutable members of `LibraryNamespaces`: the `initialized_` flag and
the `namespaces_` list of `(jweak classloader, namespace)` pairs. -/
structure LNState where
  initialized : Bool
  namespaces : List (Nat × NS)
deriving DecidableEq

/-- The library-set provider (`public_libraries.h` accessors), loaded
once per process; each is a colon-joined list of sonames. -/
structure Config where
  default_public_libraries : String
  llndk_libraries : String
  extended_public_libraries : String
  runtime_public_libraries : String
  vndksp_libraries : String
  vendor_public_libraries : String

/-- The JNI side: `GetParentClassLoader` per classloader.  Classloader
parent chains are finite and acyclic in the host VM; we realise that by
requiring parents to have strictly smaller identities. -/
structure JNIEnv where
  parent : Nat → Option Nat
  parent_lt : ∀ c p, parent c = some p → p < c

/-- The external linker/native-bridge primitives consumed by `Create`
and `InitPublicNamespace`, with the error strings they would report. -/
structure Primitive where
  createNs : String → String → String → Option NS → Bool → Bool → Option NS
  createError : String
  isBridged : NS → Bool
  getPlatform : Bool → NS
  getExported : String → Bool → Option NS
  link : NS → Option NS → String → Bool
  linkError : String
  dlerrorMsg : String
  nbIsPathSupported : String → Bool
  initAnonymousNamespace : String → Option String → Bool
  nbInitialized : Bool
  nbInitAnonymousNamespace : String → Option String → Bool
  nbError : String

/-- `LibraryNamespaces::FindNamespaceByClassLoader`: linear `find_if`
over `namespaces_` using object identity, first hit wins. -/
def FindNamespaceByClassLoader (st : LNState) (class_loader : Nat) : Option NS :=
  (st.namespaces.find? (fun pr => pr.1 == class_loader)).map Prod.snd

/-- Loop body of `FindParentNamespaceByClassLoader`: walk the parent
chain from a (possibly null) classloader, returning the first ancestor
that has a registered namespace. -/
def findParentGo (env : JNIEnv) (st : LNState) : Option Nat → Option NS
  | none => none
  | some c =>
    match FindNamespaceByClassLoader st c with
    | some ns => some ns
    | none => findParentGo env st (env.parent c)
termination_by o => match o with | none => 0 | some c => c + 1
decreasing_by
  cases h : env.parent c with
  | none => simp [h]
  | some p =>
    have := env.parent_lt c p h
    simp [h]
    omega

/-- `LibraryNamespaces::FindParentNamespaceByClassLoader`. -/
def FindParentNamespaceByClassLoader (env : JNIEnv) (st : LNState)
    (class_loader : Nat) : Option NS :=
  findParentGo env st (env.parent class_loader)

/-- The ancestor chain of a classloader, nearest parent first (the
sequence of classloaders visited by the parent walk). -/
def chainGo (env : JNIEnv) : Option Nat → List Nat
  | none => []
  | some c => c :: chainGo env (env.parent c)
termination_by o => match o with | none => 0 | some c => c + 1
decreasing_by
  cases h : env.parent c with
  | none => simp [h]
  | some p =>
    have := env.parent_lt c p h
    simp [h]
    omega

/-- Ancestors of `class_loader` (the loader itself excluded), in walk order. -/
def ancestorChain (env : JNIEnv) (class_loader : Nat) : List Nat :=
  chainGo env (env.parent class_loader)

/-! ### The per-app effective policy (lines 169–211 of `Create`) -/

/-- The values computed by the branch at lines 169–211: final search
path, permitted path, platform-exposed set, namespace label, and the
`unbundled_vendor_or_product_app` flag. -/
structure EffectivePolicy where
  library_path : String
  permitted_path : String
  system_exposed_libraries : String
  namespace_name : String
  unbundled_vendor_or_product_app : Bool
deriving DecidableEq

/-- Lines 169–211 of `LibraryNamespaces::Create`: starting from
`system_exposed_libraries = default_public_libraries()` and
`namespace_name = kClassloaderNamespaceName`, an unbundled vendor (any
SDK) or product (SDK > 29) non-shared app appends its partition lib dir
to both paths, widens the exposed set by the LLNDK set and renames the
namespace; every other app instead widens the exposed set by the
extended public set when that is non-empty. -/
def computeAppPolicy (cfg : Config) (apk_origin : ApkOrigin)
    (target_sdk_version : Nat) (is_shared : Bool)
    (library_path permitted_path : String) : EffectivePolicy :=
  if (apk_origin = ApkOrigin.vendor ∨
      (apk_origin = ApkOrigin.product ∧ 29 < target_sdk_version)) ∧
      is_shared = false then
    let origin_lib_path :=
      match apk_origin with
      | .vendor => kVendorLibPath
      | .product => kProductLibPath
      | .default => ""
    { library_path := library_path ++ ":" ++ origin_lib_path
      permitted_path := permitted_path ++ ":" ++ origin_lib_path
      system_exposed_libraries :=
        cfg.default_public_libraries ++ ":" ++ cfg.llndk_libraries
      namespace_name := kVendorClassloaderNamespaceName
      unbundled_vendor_or_product_app := true }
  else
    { library_path := library_path
      permitted_path := permitted_path
      system_exposed_libraries :=
        if cfg.extended_public_libraries = "" then cfg.default_public_libraries
        else cfg.default_public_libraries ++ ":" ++ cfg.extended_public_libraries
      namespace_name := kClassloaderNamespaceName
      unbundled_vendor_or_product_app := false }

/-! ### Bootstrap of the anonymous namespace -/

/-- `LibraryNamespaces::InitPublicNamespace`: returns the final value of
`initialized_` together with the error message set on failure. -/
def InitPublicNamespace (p : Primitive) (cfg : Config)
    (library_path : String) : Bool × String :=
  let is_native_bridge := p.nbIsPathSupported library_path
  let ini := p.initAnonymousNamespace cfg.default_public_libraries
    (if is_native_bridge then none else some library_path)
  if ini = false then (false, p.dlerrorMsg)
  else if p.nbInitialized then
    let ini2 := p.nbInitAnonymousNamespace cfg.default_public_libraries
      (if is_native_bridge then some library_path else none)
    if ini2 = false then (false, p.nbError) else (true, "")
  else (true, "")

/-! ### The linking sequence of `Create` (lines 223–259)

Each `.Link` invocation is recorded in a trace as
`(target namespace name, exposed library set)`, so that which links were
attempted is observable.  The sequence is split into the three source
sections: platform/runtime, vndk, vendor. -/

/-- A record of the `.Link` calls made, in order. -/
abbrev Trace := List (String × String)

/-- The attempted-links trace of a link-phase outcome (error or success). -/
def traceOfLink : Except (String × Trace) Trace → Trace
  | .error (_, tr) => tr
  | .ok tr => tr

/-- Lines 250–259: when `vendor_public_libraries()` is non-empty, fetch
the exported "sphal" namespace and link to it — without checking whether
it is nil — exposing the vendor public set; a failure reports
`dlerror()`.  When the set is empty nothing is attempted. -/
def vendorStep (p : Primitive) (cfg : Config) (app_ns : NS)
    (is_bridged : Bool) (tr : Trace) : Except (String × Trace) Trace :=
  if cfg.vendor_public_libraries = "" then .ok tr
  else
    let vendor_ns := p.getExported kVendorNamespaceName is_bridged
    let tr' := tr ++ [(kVendorNamespaceName, cfg.vendor_public_libraries)]
    if p.link app_ns vendor_ns cfg.vendor_public_libraries = false then
      .error (p.dlerrorMsg, tr')
    else .ok tr'

/-- Lines 241–248: for an unbundled vendor/product app with a non-empty
VNDK-SP set, fetch the exported "vndk" namespace and link to it only
when it is not nil; then fall through to the vendor step. -/
def vndkStep (p : Primitive) (cfg : Config) (pol : EffectivePolicy)
    (app_ns : NS) (is_bridged : Bool) (tr : Trace) :
    Except (String × Trace) Trace :=
  if pol.unbundled_vendor_or_product_app = true ∧ cfg.vndksp_libraries ≠ "" then
    match p.getExported kVndkNamespaceName is_bridged with
    | some vndk_ns =>
      let tr' := tr ++ [(kVndkNamespaceName, cfg.vndksp_libraries)]
      if p.link app_ns (some vndk_ns) cfg.vndksp_libraries = false then
        .error (p.linkError, tr')
      else vendorStep p cfg app_ns is_bridged tr'
    | none => vendorStep p cfg app_ns is_bridged tr
  else vendorStep p cfg app_ns is_bridged tr

/-- Lines 223–239 followed by the vndk and vendor steps: link the new
namespace to the platform namespace exposing the computed set, then to
the exported runtime namespace (when present) exposing the runtime
public set. -/
def linkPhase (p : Primitive) (cfg : Config) (pol : EffectivePolicy)
    (app_ns : NS) : Except (String × Trace) Trace :=
  let is_bridged := p.isBridged app_ns
  let platform_ns := p.getPlatform is_bridged
  let tr0 : Trace := [("platform", pol.system_exposed_libraries)]
  if p.link app_ns (some platform_ns) pol.system_exposed_libraries = false then
    .error (p.linkError, tr0)
  else
    match p.getExported kRuntimeNamespaceName is_bridged with
    | some runtime_ns =>
      let tr1 := tr0 ++ [(kRuntimeNamespaceName, cfg.runtime_public_libraries)]
      if p.link app_ns (some runtime_ns) cfg.runtime_public_libraries = false then
        .error (p.linkError, tr1)
      else vndkStep p cfg pol app_ns is_bridged tr1
    | none => vndkStep p cfg pol app_ns is_bridged tr0

/-! ### `LibraryNamespaces::Create` -/

/-- Outcome of `LibraryNamespaces::Create`: a `LOG_ALWAYS_FATAL` abort,
a `nullptr` return with `*error_msg` set (carrying the state as left by
the call and the link trace so far), or the returned namespace together
with the updated state and the full link trace. -/
inductive CreateResult where
  | fatal (msg : String)
  | err (st : LNState) (msg : String) (tr : Trace)
  | ok (st : LNState) (ns : NS) (tr : Trace)
deriving DecidableEq

/-- Lines 165–264 of `Create`, from the duplicate-registration check
onward, running against the state `st1` left by the bootstrap step:
abort on a duplicate classloader; compute the effective policy; create
the app namespace under the nearest registered ancestor; run the link
sequence; on success append the registry entry and return the stored
namespace. -/
def createScope (p : Primitive) (cfg : Config) (env : JNIEnv) (st1 : LNState)
    (apk_origin : ApkOrigin) (target_sdk_version : Nat) (class_loader : Nat)
    (is_shared : Bool) (library_path permitted_path : String) : CreateResult :=
  match FindNamespaceByClassLoader st1 class_loader with
  | some _ =>
    .fatal "There is already a namespace associated with this classloader"
  | none =>
    let pol := computeAppPolicy cfg apk_origin target_sdk_version
      is_shared library_path permitted_path
    let parent_ns := FindParentNamespaceByClassLoader env st1 class_loader
    match p.createNs pol.namespace_name pol.library_path pol.permitted_path
        parent_ns is_shared (decide (target_sdk_version < 24)) with
    | none => .err st1 p.createError []
    | some app_ns =>
      match linkPhase p cfg pol app_ns with
      | .error (msg, tr) => .err st1 msg tr
      | .ok tr =>
        .ok { st1 with
              namespaces := st1.namespaces ++ [(class_loader, app_ns)] }
          app_ns tr

/-- `LibraryNamespaces::Create` (lines 130–264).  In source order:
extract `library_path` and `permitted_path` from the nullable JNI
strings; classify the dex path (may abort); lazily initialise the
anonymous namespace on the first non-empty library path (failure returns
an error, success sets `initialized_`); then run the scope-creation
stage `createScope`. -/
def Create (p : Primitive) (cfg : Config) (env : JNIEnv) (st : LNState)
    (target_sdk_version : Nat) (class_loader : Nat) (is_shared : Bool)
    (dex_path java_library_path java_permitted_path : Option String) :
    CreateResult :=
  let library_path := java_library_path.getD ""
  match GetApkOriginFromDexPath dex_path with
  | .fatal msg => .fatal msg
  | .ok apk_origin =>
    let permitted_path :=
      match java_permitted_path with
      | some s =>
        if s ≠ "" then kWhitelistedDirectories ++ ":" ++ s
        else kWhitelistedDirectories
      | none => kWhitelistedDirectories
    if library_path ≠ "" ∧ st.initialized = false then
      match InitPublicNamespace p cfg library_path with
      | (false, msg) => .err { st with initialized := false } msg []
      | (true, _) =>
        createScope p cfg env { st with initialized := true } apk_origin
          target_sdk_version class_loader is_shared library_path permitted_path
    else
      createScope p cfg env st apk_origin target_sdk_version class_loader
        is_shared library_path permitted_path

/-! ### `LibraryNamespaces::Initialize` (the preload step) -/

/-- Outcome of the preload loop: each configured default public library
is `dlopen`ed in turn; the first failure is `LOG_ALWAYS_FATAL`. -/
inductive InitializeResult where
  | fatal (soname : String)
  | done
deriving DecidableEq

/-- The `dlopen` loop of `Initialize`, also returning the list of
sonames for which a `dlopen` was attempted, in order. -/
def preloadLoop (dlopenOk : String → Bool) :
    List String → InitializeResult × List String
  | [] => (.done, [])
  | soname :: rest =>
    if dlopenOk soname then
      let r := preloadLoop dlopenOk rest
      (r.1, soname :: r.2)
    else (.fatal soname, [soname])

/-- `LibraryNamespaces::Initialize`: returns early when `initialized_`
is already set; otherwise `dlopen`s every entry of
`Split(default_public_libraries(), ":")`.  The method writes no member,
so the state is returned unchanged in both cases; the attempted-preload
list makes the side effects observable. -/
def Initialize (dlopenOk : String → Bool) (cfg : Config) (st : LNState) :
    LNState × InitializeResult × List String :=
  if st.initialized then (st, .done, [])
  else
    let r := preloadLoop dlopenOk (androidBaseSplit cfg.default_public_libraries)
    (st, r.1, r.2)

/-! ### Declarative semantics of the two dex-path regexes

The specification side: a pattern "matches" when it occurs at the very
start of the subject or immediately after a ':'.  The lemmas below prove
the executable scanner equivalent to this declarative property. -/

/-- Declarative reading of `regex_search(s, "(^|:)" ++ pat)`. -/
def MatchesAtBoundary (pat s : List Char) : Prop :=
  (∃ t, pat ++ t = s) ∨ ∃ a b, s = a ++ ':' :: (pat ++ b)

/-- Declarative reading of `kVendorDexPathRegex` = `(^|:)/vendor/`. -/
def VendorPathMatch (s : String) : Prop :=
  MatchesAtBoundary "/vendor/".toList s.toList

/-- Declarative reading of `kProductDexPathRegex` =
`(^|:)(/system)?/product/`. -/
def ProductPathMatch (s : String) : Prop :=
  MatchesAtBoundary "/product/".toList s.toList ∨
    MatchesAtBoundary "/system/product/".toList s.toList

theorem startsWithList_iff (pat s : List Char) :
    startsWithList pat s = true ↔ ∃ t, pat ++ t = s := by
  induction pat generalizing s with
  | nil => simp [startsWithList]
  | cons c cs ih =>
    cases s with
    | nil => simp [startsWithList]
    | cons d ds =>
      simp only [startsWithList, Bool.and_eq_true, beq_iff_eq, ih,
        List.cons_append, List.cons.injEq]
      constructor
      · rintro ⟨rfl, t, rfl⟩
        exact ⟨t, rfl, rfl⟩
      · rintro ⟨t, rfl, rfl⟩
        exact ⟨rfl, t, rfl⟩

theorem afterColon_iff (pat s : List Char) :
    afterColon pat s = true ↔ ∃ a b, s = a ++ ':' :: (pat ++ b) := by
  induction s with
  | nil =>
    constructor
    · intro h
      simp [afterColon] at h
    · rintro ⟨a, b, h⟩
      cases a <;> simp at h
  | cons c rest ih =>
    simp only [afterColon, Bool.or_eq_true, Bool.and_eq_true, beq_iff_eq,
      startsWithList_iff, ih]
    constructor
    · rintro (⟨rfl, t, rfl⟩ | ⟨a, b, rfl⟩)
      · exact ⟨[], t, rfl⟩
      · exact ⟨c :: a, b, rfl⟩
    · rintro ⟨a, b, h⟩
      cases a with
      | nil =>
        simp only [List.nil_append, List.cons.injEq] at h
        exact Or.inl ⟨h.1, b, h.2.symm⟩
      | cons x a' =>
        simp only [List.cons_append, List.cons.injEq] at h
        exact Or.inr ⟨a', b, h.2⟩

theorem boundaryMatch_iff (pat s : List Char) :
    boundaryMatch pat s = true ↔ MatchesAtBoundary pat s := by
  simp only [boundaryMatch, Bool.or_eq_true, startsWithList_iff,
    afterColon_iff, MatchesAtBoundary]

theorem vendorMatch_iff (s : String) :
    vendorMatch s = true ↔ VendorPathMatch s :=
  boundaryMatch_iff _ _

theorem productMatch_iff (s : String) :
    productMatch s = true ↔ ProductPathMatch s := by
  simp only [productMatch, Bool.or_eq_true, boundaryMatch_iff]
  exact Iff.rfl

/-! ### Library-name sets as word lists

A colon-joined set string is interpreted as its list of words; the
append lemma below lets exposed-set concatenations be read set-wise. -/

/-- The library names denoted by a colon-joined set string. -/
def wordsOf (s : String) : List (List Char) := splitCols s.toList

theorem splitCols_ne_nil (l : List Char) : splitCols l ≠ [] := by
  induction l with
  | nil => simp [splitCols]
  | cons c rest ih =>
    cases h : splitCols rest with
    | nil => exact absurd h ih
    | cons w ws =>
      simp only [splitCols, h]
      split <;> simp

theorem splitCols_append_colon (a b : List Char) :
    splitCols (a ++ ':' :: b) = splitCols a ++ splitCols b := by
  induction a with
  | nil =>
    cases h : splitCols b with
    | nil => exact absurd h (splitCols_ne_nil b)
    | cons w ws => simp [splitCols, h]
  | cons c a' ih =>
    cases h : splitCols a' with
    | nil => exact absurd h (splitCols_ne_nil a')
    | cons w ws =>
      rw [List.cons_append]
      simp only [splitCols, ih, h, List.cons_append]
      split <;> simp

theorem string_data_append (a b : String) :
    (a ++ b).data = a.data ++ b.data := rfl

theorem wordsOf_append_colon (a b : String) :
    wordsOf (a ++ ":" ++ b) = wordsOf a ++ wordsOf b := by
  have hcolon : ":".data = [':'] := rfl
  have h : (a ++ ":" ++ b).toList = a.toList ++ ':' :: b.toList := by
    show (a ++ ":" ++ b).data = a.data ++ ':' :: b.data
    rw [string_data_append, string_data_append, hcolon]
    simp
  simp [wordsOf, h, splitCols_append_colon]

/-! ### Claim theorems: the origin classifier (C3) -/

/-- C3: the origin classifier is total over the optional dex path:
absent provenance gives Default; matching neither regex gives Default;
matching only the vendor regex gives Vendor; matching only the product
regex gives Product; matching both aborts instead of returning. -/
theorem classifier_totality :
    GetApkOriginFromDexPath none = ClassifyResult.ok ApkOrigin.default ∧
    (∀ s : String, ¬ VendorPathMatch s → ¬ ProductPathMatch s →
      GetApkOriginFromDexPath (some s) = ClassifyResult.ok ApkOrigin.default) ∧
    (∀ s : String, VendorPathMatch s → ¬ ProductPathMatch s →
      GetApkOriginFromDexPath (some s) = ClassifyResult.ok ApkOrigin.vendor) ∧
    (∀ s : String, ¬ VendorPathMatch s → ProductPathMatch s →
      GetApkOriginFromDexPath (some s) = ClassifyResult.ok ApkOrigin.product) ∧
    (∀ s : String, VendorPathMatch s → ProductPathMatch s →
      GetApkOriginFromDexPath (some s) = ClassifyResult.fatal
        ("Dex path contains both vendor and product partition : " ++ s)) := by
  refine ⟨rfl, ?_, ?_, ?_, ?_⟩ <;> intro s h1 h2
  · have hv : vendorMatch s = false := by
      rw [← vendorMatch_iff] at h1
      simpa using h1
    have hp : productMatch s = false := by
      rw [← productMatch_iff] at h2
      simpa using h2
    simp [GetApkOriginFromDexPath, hv, hp]
  · have hv : vendorMatch s = true := (vendorMatch_iff s).mpr h1
    have hp : productMatch s = false := by
      rw [← productMatch_iff] at h2
      simpa using h2
    simp [GetApkOriginFromDexPath, hv, hp]
  · have hv : vendorMatch s = false := by
      rw [← vendorMatch_iff] at h1
      simpa using h1
    have hp : productMatch s = true := (productMatch_iff s).mpr h2
    simp [GetApkOriginFromDexPath, hv, hp]
  · have hv : vendorMatch s = true := (vendorMatch_iff s).mpr h1
    have hp : productMatch s = true := (productMatch_iff s).mpr h2
    simp [GetApkOriginFromDexPath, hv, hp]

/-- Witness for C3 at four concrete provenance strings. -/
theorem classifier_totality_witness :
    GetApkOriginFromDexPath (some "/vendor/app.apk") =
      ClassifyResult.ok ApkOrigin.vendor ∧
    GetApkOriginFromDexPath (some "/system/product/app.apk") =
      ClassifyResult.ok ApkOrigin.product ∧
    GetApkOriginFromDexPath (some "/data/app/base.apk") =
      ClassifyResult.ok ApkOrigin.default ∧
    GetApkOriginFromDexPath (some "/vendor/a.apk:/product/b.apk") =
      ClassifyResult.fatal
        ("Dex path contains both vendor and product partition : " ++
          "/vendor/a.apk:/product/b.apk") := by
  refine ⟨?_, ?_, ?_, ?_⟩
  · exact classifier_totality.2.2.1 "/vendor/app.apk"
      ((vendorMatch_iff _).mp (by decide))
      (fun hp => absurd ((productMatch_iff _).mpr hp) (by decide))
  · exact classifier_totality.2.2.2.1 "/system/product/app.apk"
      (fun hv => absurd ((vendorMatch_iff _).mpr hv) (by decide))
      ((productMatch_iff _).mp (by decide))
  · exact classifier_totality.2.1 "/data/app/base.apk"
      (fun hv => absurd ((vendorMatch_iff _).mpr hv) (by decide))
      (fun hp => absurd ((productMatch_iff _).mpr hp) (by decide))
  · exact classifier_totality.2.2.2.2 "/vendor/a.apk:/product/b.apk"
      ((vendorMatch_iff _).mp (by decide))
      ((productMatch_iff _).mp (by decide))

/-! ### Claim theorems: the effective policy (C1, C2, C7) -/

/-- C1: for a non-shared app whose provenance classifies as Vendor, at
any target SDK level, the effective policy appends the vendor private
library directory to both the search and the permitted paths, exposes
the default public set widened by the LLNDK set towards the platform,
and labels the namespace `vendor-classloader-namespace`. -/
theorem unbundled_vendor_app_policy (cfg : Config) (target_sdk_version : Nat)
    (library_path permitted_path : String) (dex_path : Option String)
    (origin : ApkOrigin)
    (hc : GetApkOriginFromDexPath dex_path = ClassifyResult.ok origin)
    (hv : origin = ApkOrigin.vendor) :
    computeAppPolicy cfg origin target_sdk_version false
        library_path permitted_path =
      { library_path := library_path ++ ":" ++ kVendorLibPath
        permitted_path := permitted_path ++ ":" ++ kVendorLibPath
        system_exposed_libraries :=
          cfg.default_public_libraries ++ ":" ++ cfg.llndk_libraries
        namespace_name := kVendorClassloaderNamespaceName
        unbundled_vendor_or_product_app := true } ∧
    wordsOf (computeAppPolicy cfg origin target_sdk_version false
        library_path permitted_path).system_exposed_libraries =
      wordsOf cfg.default_public_libraries ++ wordsOf cfg.llndk_libraries := by
  subst hv
  have heq : computeAppPolicy cfg ApkOrigin.vendor target_sdk_version false
      library_path permitted_path =
      { library_path := library_path ++ ":" ++ kVendorLibPath
        permitted_path := permitted_path ++ ":" ++ kVendorLibPath
        system_exposed_libraries :=
          cfg.default_public_libraries ++ ":" ++ cfg.llndk_libraries
        namespace_name := kVendorClassloaderNamespaceName
        unbundled_vendor_or_product_app := true } := by
    simp [computeAppPolicy]
  refine ⟨heq, ?_⟩
  rw [heq]
  exact wordsOf_append_colon _ _

/-- C2: for a shared (bundled) app with vendor provenance the ordinary
branch applies: paths are unchanged, the namespace keeps the ordinary
label, and the platform-exposed set is the default public set widened
only by the extended public set when that is non-empty — every exposed
name comes from the default or the extended set, so the LLNDK names are
not added. -/
theorem shared_vendor_app_policy (cfg : Config) (target_sdk_version : Nat)
    (library_path permitted_path : String) (dex_path : Option String)
    (origin : ApkOrigin)
    (hc : GetApkOriginFromDexPath dex_path = ClassifyResult.ok origin)
    (hv : origin = ApkOrigin.vendor) :
    computeAppPolicy cfg origin target_sdk_version true
        library_path permitted_path =
      { library_path := library_path
        permitted_path := permitted_path
        system_exposed_libraries :=
          if cfg.extended_public_libraries = "" then cfg.default_public_libraries
          else cfg.default_public_libraries ++ ":" ++
            cfg.extended_public_libraries
        namespace_name := kClassloaderNamespaceName
        unbundled_vendor_or_product_app := false } ∧
    ∀ w ∈ wordsOf (computeAppPolicy cfg origin target_sdk_version true
        library_path permitted_path).system_exposed_libraries,
      w ∈ wordsOf cfg.default_public_libraries ∨
        w ∈ wordsOf cfg.extended_public_libraries := by
  subst hv
  have heq : computeAppPolicy cfg ApkOrigin.vendor target_sdk_version true
      library_path permitted_path =
      { library_path := library_path
        permitted_path := permitted_path
        system_exposed_libraries :=
          if cfg.extended_public_libraries = "" then cfg.default_public_libraries
          else cfg.default_public_libraries ++ ":" ++
            cfg.extended_public_libraries
        namespace_name := kClassloaderNamespaceName
        unbundled_vendor_or_product_app := false } := by
    simp [computeAppPolicy]
  refine ⟨heq, ?_⟩
  rw [heq]
  by_cases hext : cfg.extended_public_libraries = ""
  · intro w hw
    simp only [hext, if_pos rfl] at hw
    exact Or.inl hw
  · intro w hw
    simp only [if_neg hext, wordsOf_append_colon, List.mem_append] at hw
    exact hw

/-- C7: a non-shared product app at or below the SDK-29 legacy threshold
is treated as an ordinary bundled app — no partition directory is
appended, no LLNDK widening happens, the extended public set still
applies when configured. -/
theorem legacy_product_app_policy (cfg : Config) (target_sdk_version : Nat)
    (library_path permitted_path : String) (dex_path : Option String)
    (origin : ApkOrigin)
    (hc : GetApkOriginFromDexPath dex_path = ClassifyResult.ok origin)
    (hp : origin = ApkOrigin.product)
    (h29 : target_sdk_version ≤ 29) :
    computeAppPolicy cfg origin target_sdk_version false
        library_path permitted_path =
      { library_path := library_path
        permitted_path := permitted_path
        system_exposed_libraries :=
          if cfg.extended_public_libraries = "" then cfg.default_public_libraries
          else cfg.default_public_libraries ++ ":" ++
            cfg.extended_public_libraries
        namespace_name := kClassloaderNamespaceName
        unbundled_vendor_or_product_app := false } := by
  subst hp
  have hcond : ¬ ((ApkOrigin.product = ApkOrigin.vendor ∨
      (ApkOrigin.product = ApkOrigin.product ∧ 29 < target_sdk_version)) ∧
      false = false) := by
    rintro ⟨h | ⟨-, hlt⟩, -⟩
    · exact absurd h (by decide)
    · omega
  rw [computeAppPolicy, if_neg hcond]

/-! ### Concrete instances used by witnesses and counterexamples -/

/-- A concrete library-set configuration with every set non-empty. -/
def cfgA : Config :=
  { default_public_libraries := "libc.so:libm.so"
    llndk_libraries := "libllndk.so"
    extended_public_libraries := "libext.so"
    runtime_public_libraries := "libandroidicu.so"
    vndksp_libraries := "libvndksp.so"
    vendor_public_libraries := "libvendorpub.so" }

/-- Witness for C1 at a concrete configuration, SDK level and paths. -/
theorem unbundled_vendor_app_policy_witness :
    computeAppPolicy cfgA ApkOrigin.vendor 1 false "/data/app/x/lib" "/data/x" =
      { library_path := "/data/app/x/lib" ++ ":" ++ kVendorLibPath
        permitted_path := "/data/x" ++ ":" ++ kVendorLibPath
        system_exposed_libraries :=
          cfgA.default_public_libraries ++ ":" ++ cfgA.llndk_libraries
        namespace_name := kVendorClassloaderNamespaceName
        unbundled_vendor_or_product_app := true } ∧
    wordsOf (computeAppPolicy cfgA ApkOrigin.vendor 1 false "/data/app/x/lib"
        "/data/x").system_exposed_libraries =
      wordsOf cfgA.default_public_libraries ++ wordsOf cfgA.llndk_libraries :=
  unbundled_vendor_app_policy cfgA 1 "/data/app/x/lib" "/data/x"
    (some "/vendor/v.apk") ApkOrigin.vendor (by decide) rfl

/-- Witness for C2 at a concrete configuration with a non-empty extended
public set. -/
theorem shared_vendor_app_policy_witness :
    computeAppPolicy cfgA ApkOrigin.vendor 30 true "/data/app/y/lib" "/data/y" =
      { library_path := "/data/app/y/lib"
        permitted_path := "/data/y"
        system_exposed_libraries :=
          if cfgA.extended_public_libraries = "" then cfgA.default_public_libraries
          else cfgA.default_public_libraries ++ ":" ++
            cfgA.extended_public_libraries
        namespace_name := kClassloaderNamespaceName
        unbundled_vendor_or_product_app := false } :=
  (shared_vendor_app_policy cfgA 30 "/data/app/y/lib" "/data/y"
    (some "/vendor/v.apk") ApkOrigin.vendor (by decide) rfl).1

/-- Witness for C7 at the threshold SDK level 29 itself. -/
theorem legacy_product_app_policy_witness :
    computeAppPolicy cfgA ApkOrigin.product 29 false "/data/app/z/lib" "/data/z" =
      { library_path := "/data/app/z/lib"
        permitted_path := "/data/z"
        system_exposed_libraries :=
          if cfgA.extended_public_libraries = "" then cfgA.default_public_libraries
          else cfgA.default_public_libraries ++ ":" ++
            cfgA.extended_public_libraries
        namespace_name := kClassloaderNamespaceName
        unbundled_vendor_or_product_app := false } :=
  legacy_product_app_policy cfgA 29 "/data/app/z/lib" "/data/z"
    (some "/product/p.apk") ApkOrigin.product (by decide) rfl (by decide)

/-! ### Claim theorem: the parent-namespace walk (C8) -/

theorem go_spec (env : JNIEnv) (st : LNState) (o : Option Nat) :
    findParentGo env st o =
      (chainGo env o).findSome? (fun a => FindNamespaceByClassLoader st a) := by
  match o with
  | none => simp [findParentGo, chainGo]
  | some c =>
    induction c using Nat.strong_induction_on with
    | _ c ih =>
      rw [findParentGo, chainGo]
      cases hf : FindNamespaceByClassLoader st c with
      | some ns => simp [hf, List.findSome?_cons]
      | none =>
        cases h : env.parent c with
        | none => simp [hf, findParentGo, chainGo, List.findSome?_cons]
        | some p =>
          have hp := env.parent_lt c p h
          have := ih p hp
          simp [hf, List.findSome?_cons, this]

/-- A concrete JNI parent chain: 10 → 3 → 2 → 1, everything else a root. -/
def envH : JNIEnv :=
  { parent := fun c =>
      if c = 10 then some 3
      else if c = 3 then some 2
      else if c = 2 then some 1
      else none
    parent_lt := by
      intro c p h
      simp only at h
      split at h
      · injection h with h'
        omega
      · split at h
        · injection h with h'
          omega
        · split at h
          · injection h with h'
            omega
          · cases h }

/-- A registry in which only classloader 2 has a namespace (handle 77). -/
def stH : LNState := { initialized := true, namespaces := [(2, 77)] }

/-- C8: the parent walk returns the first hit along the ancestor chain
(`List.findSome?` over the chain in walk order), and `none` when the
chain is exhausted; concretely, on the three-hop chain 10 → 3 → 2 → 1
where only the second ancestor (2) is registered, it returns 2's handle. -/
theorem find_parent_first_hit :
    (∀ (env : JNIEnv) (st : LNState) (class_loader : Nat),
      FindParentNamespaceByClassLoader env st class_loader =
        (ancestorChain env class_loader).findSome?
          (fun a => FindNamespaceByClassLoader st a)) ∧
    ancestorChain envH 10 = [3, 2, 1] ∧
    FindNamespaceByClassLoader stH 3 = none ∧
    FindNamespaceByClassLoader stH 2 = some 77 ∧
    FindNamespaceByClassLoader stH 1 = none ∧
    FindParentNamespaceByClassLoader envH stH 10 = some 77 := by
  refine ⟨?_, ?_, rfl, rfl, rfl, ?_⟩
  · intro env st cl
    exact go_spec env st (env.parent cl)
  · simp [ancestorChain, chainGo, envH]
  · simp [FindParentNamespaceByClassLoader, findParentGo, envH, stH,
      FindNamespaceByClassLoader]

/-! ### Inversion lemmas for the scope-creation stage -/

theorem createScope_registry (p : Primitive) (cfg : Config) (env : JNIEnv)
    (st1 : LNState) (apk_origin : ApkOrigin)
    (target_sdk_version class_loader : Nat) (is_shared : Bool)
    (library_path permitted_path : String) :
    ∀ st' msg tr, createScope p cfg env st1 apk_origin target_sdk_version
        class_loader is_shared library_path permitted_path = .err st' msg tr →
      st' = st1 := by
  intro st' msg tr h
  rw [createScope.eq_def] at h
  dsimp only at h
  repeat' split at h
  all_goals simp_all

theorem createScope_ok_inv (p : Primitive) (cfg : Config) (env : JNIEnv)
    (st1 : LNState) (apk_origin : ApkOrigin)
    (target_sdk_version class_loader : Nat) (is_shared : Bool)
    (library_path permitted_path : String) (st' : LNState) (ns : NS)
    (tr : Trace)
    (h : createScope p cfg env st1 apk_origin target_sdk_version
      class_loader is_shared library_path permitted_path = .ok st' ns tr) :
    FindNamespaceByClassLoader st1 class_loader = none ∧
    st'.namespaces = st1.namespaces ++ [(class_loader, ns)] := by
  rw [createScope.eq_def] at h
  dsimp only at h
  repeat' split at h
  · exact absurd h (by simp)
  · exact absurd h (by simp)
  · exact absurd h (by simp)
  · simp only [CreateResult.ok.injEq] at h
    obtain ⟨h1, rfl, rfl⟩ := h
    subst h1
    exact ⟨by assumption, by simp⟩

theorem createScope_dup (p : Primitive) (cfg : Config) (env : JNIEnv)
    (st1 : LNState) (apk_origin : ApkOrigin)
    (target_sdk_version class_loader : Nat) (is_shared : Bool)
    (library_path permitted_path : String) (v : NS)
    (hf : FindNamespaceByClassLoader st1 class_loader = some v) :
    createScope p cfg env st1 apk_origin target_sdk_version class_loader
        is_shared library_path permitted_path =
      .fatal "There is already a namespace associated with this classloader" := by
  rw [createScope.eq_def, hf]

theorem Create_inv (p : Primitive) (cfg : Config) (env : JNIEnv)
    (st : LNState) (target_sdk_version class_loader : Nat) (is_shared : Bool)
    (dex_path java_library_path java_permitted_path : Option String) :
    (∀ st' msg tr, Create p cfg env st target_sdk_version class_loader
        is_shared dex_path java_library_path java_permitted_path =
          .err st' msg tr →
      st'.namespaces = st.namespaces) ∧
    (∀ st' ns tr, Create p cfg env st target_sdk_version class_loader
        is_shared dex_path java_library_path java_permitted_path =
          .ok st' ns tr →
      FindNamespaceByClassLoader st class_loader = none ∧
      st'.namespaces = st.namespaces ++ [(class_loader, ns)]) := by
  constructor
  · intro st' msg tr h
    rw [Create.eq_def] at h
    dsimp only at h
    repeat' split at h
    all_goals
      first
        | (simp only [CreateResult.err.injEq] at h
           obtain ⟨h1, rfl, rfl⟩ := h
           subst h1
           rfl)
        | (have hst := createScope_registry _ _ _ _ _ _ _ _ _ _ _ _ _ h
           subst hst
           rfl)
        | simp at h
  · intro st' ns tr h
    rw [Create.eq_def] at h
    dsimp only at h
    repeat' split at h
    all_goals
      first
        | (have hres := createScope_ok_inv _ _ _ _ _ _ _ _ _ _ _ _ _ h
           exact hres)
        | simp at h

theorem find_append_first {α : Type} (q : α → Bool) (l1 l2 : List α) :
    (l1 ++ l2).find? q =
      match l1.find? q with
      | some x => some x
      | none => l2.find? q := by
  induction l1 with
  | nil => simp
  | cons a l ih =>
    by_cases hq : q a
    · simp [List.find?_cons_of_pos _ hq]
    · simp [List.find?_cons_of_neg _ hq, ih]

/-- A root JNI environment: every classloader has a null parent. -/
def envR : JNIEnv :=
  { parent := fun _ => none
    parent_lt := by
      intro c p h
      simp at h }

/-- A primitive in which every operation succeeds, namespace creation
yields handle 5, and no exported namespace exists. -/
def pA : Primitive :=
  { createNs := fun _ _ _ _ _ _ => some 5
    createError := "namespace create failed"
    isBridged := fun _ => false
    getPlatform := fun _ => 0
    getExported := fun _ _ => none
    link := fun _ _ _ => true
    linkError := "link failed"
    dlerrorMsg := "dlopen failed"
    nbIsPathSupported := fun _ => false
    initAnonymousNamespace := fun _ _ => true
    nbInitialized := false
    nbInitAnonymousNamespace := fun _ _ => true
    nbError := "native bridge error" }

/-! ### Claim theorem: registry atomicity of `Create` (C5) -/

/-- C5: `Create` is atomic with respect to the registry: on any error
return the `namespaces_` list is exactly as before the call, and on
success it is the old list with exactly the one new
`(classloader, namespace)` entry appended, the returned namespace being
the appended one. -/
theorem create_registry_atomic (p : Primitive) (cfg : Config) (env : JNIEnv)
    (st : LNState) (target_sdk_version class_loader : Nat) (is_shared : Bool)
    (dex_path java_library_path java_permitted_path : Option String) :
    (∀ st' msg tr, Create p cfg env st target_sdk_version class_loader
        is_shared dex_path java_library_path java_permitted_path =
          .err st' msg tr →
      st'.namespaces = st.namespaces) ∧
    (∀ st' ns tr, Create p cfg env st target_sdk_version class_loader
        is_shared dex_path java_library_path java_permitted_path =
          .ok st' ns tr →
      st'.namespaces = st.namespaces ++ [(class_loader, ns)]) := by
  obtain ⟨h1, h2⟩ := Create_inv p cfg env st target_sdk_version class_loader
    is_shared dex_path java_library_path java_permitted_path
  exact ⟨h1, fun st' ns tr h => (h2 st' ns tr h).2⟩

/-- Witness for C5: a fully successful concrete creation appends exactly
one entry. -/
theorem create_registry_atomic_witness :
    (LNState.mk true [(7, 5)]).namespaces =
      (LNState.mk true []).namespaces ++ [(7, 5)] :=
  (create_registry_atomic pA cfgA envR ⟨true, []⟩ 30 7 false none none none).2
    ⟨true, [(7, 5)]⟩ 5
    [("platform", "libc.so:libm.so:libext.so"), ("sphal", "libvendorpub.so")]
    (by rfl)

/-! ### Claim theorem: the returned handle is the registered one (C10) -/

/-- C10: after a successful `Create`, the registry is the old one with
the new pair appended (append-only, nothing overwritten or reordered), a
lookup of the same classloader returns exactly the returned namespace,
and lookups of any other classloader are unchanged. -/
theorem create_ok_registered (p : Primitive) (cfg : Config) (env : JNIEnv)
    (st : LNState) (target_sdk_version class_loader : Nat) (is_shared : Bool)
    (dex_path java_library_path java_permitted_path : Option String)
    (st' : LNState) (ns : NS) (tr : Trace)
    (h : Create p cfg env st target_sdk_version class_loader is_shared
      dex_path java_library_path java_permitted_path = .ok st' ns tr) :
    st'.namespaces = st.namespaces ++ [(class_loader, ns)] ∧
    FindNamespaceByClassLoader st' class_loader = some ns ∧
    (∀ cl', cl' ≠ class_loader →
      FindNamespaceByClassLoader st' cl' = FindNamespaceByClassLoader st cl') := by
  obtain ⟨hnone, happ⟩ := (Create_inv p cfg env st target_sdk_version
    class_loader is_shared dex_path java_library_path java_permitted_path).2
    st' ns tr h
  have h0 : st.namespaces.find? (fun pr => pr.1 == class_loader) = none := by
    unfold FindNamespaceByClassLoader at hnone
    cases hf : st.namespaces.find? (fun pr => pr.1 == class_loader) with
    | none => rfl
    | some x => rw [hf] at hnone; simp at hnone
  refine ⟨happ, ?_, ?_⟩
  · unfold FindNamespaceByClassLoader
    rw [happ, find_append_first, h0]
    simp
  · intro cl' hne
    unfold FindNamespaceByClassLoader
    rw [happ, find_append_first]
    cases hf : st.namespaces.find? (fun pr => pr.1 == cl') with
    | some x => simp
    | none =>
      have : (class_loader == cl') = false := by
        simp
        exact fun hh => hne hh.symm
      simp [List.find?, this]

/-- Witness for C10: the concrete successful creation of C5's witness
run yields a registry whose lookup returns the returned handle. -/
theorem create_ok_registered_witness :
    (LNState.mk true [(7, 5)]).namespaces =
      (LNState.mk true []).namespaces ++ [(7, 5)] ∧
    FindNamespaceByClassLoader ⟨true, [(7, 5)]⟩ 7 = some 5 :=
  have hc := create_ok_registered pA cfgA envR ⟨true, []⟩ 30 7 false
    none none none ⟨true, [(7, 5)]⟩ 5
    [("platform", "libc.so:libm.so:libext.so"), ("sphal", "libvendorpub.so")]
    (by rfl)
  ⟨hc.1, hc.2.1⟩

/-! ### Claim C4: duplicate registration

The claim as stated is refuted: the duplicate check (line 165) runs
after the lazy anonymous-namespace bootstrap (lines 159–163), so a
second call for an already-registered classloader can still return a
soft error when that bootstrap step fails, never reaching the fatal
check.  The amended statement: with a registered classloader the call
never succeeds and never appends a second entry, and it takes the fatal
duplicate path as soon as classification does not abort and the
bootstrap step (if triggered) succeeds. -/

/-- A state that already has an entry for classloader 0, with the
bootstrap flag still unset. -/
def stC : LNState := { initialized := false, namespaces := [(0, 5)] }

/-- `pA` with a failing anonymous-namespace initialisation. -/
def pFail : Primitive := { pA with initAnonymousNamespace := fun _ _ => false }

/-- Counterexample to C4 as stated: classloader 0 is already registered,
yet the second call returns the soft bootstrap error (a `nullptr` return
with `*error_msg` set), not the fatal duplicate-registration abort. -/
theorem duplicate_registration_counterexample :
    FindNamespaceByClassLoader stC 0 = some 5 ∧
    Create pFail cfgA envR stC 30 0 false none (some "/data/app/lib") none =
      .err stC "dlopen failed" [] :=
  ⟨rfl, rfl⟩

/-- C4 (amended): when the classloader already has a registry entry, a
second `Create` never returns success (so no second entry can be
registered), and it takes the fatal duplicate-registration path whenever
classification does not itself abort and the lazy bootstrap step is
either skipped (empty library path or flag already set) or succeeds. -/
theorem duplicate_registration_fatal (p : Primitive) (cfg : Config)
    (env : JNIEnv) (st : LNState)
    (target_sdk_version class_loader : Nat) (is_shared : Bool)
    (dex_path java_library_path java_permitted_path : Option String) (v : NS)
    (hdup : FindNamespaceByClassLoader st class_loader = some v) :
    (∀ st' ns tr, Create p cfg env st target_sdk_version class_loader
        is_shared dex_path java_library_path java_permitted_path ≠
      .ok st' ns tr) ∧
    ((∀ m, GetApkOriginFromDexPath dex_path ≠ ClassifyResult.fatal m) →
     (java_library_path.getD "" = "" ∨ st.initialized = true ∨
       ( InitPublicNamespace p cfg (java_library_path.getD "")).1 = true) →
     Create p cfg env st target_sdk_version class_loader is_shared
         dex_path java_library_path java_permitted_path =
       .fatal "There is already a namespace associated with this classloader") := by
  constructor
  · intro st' ns tr h
    obtain ⟨hnone, -⟩ := (Create_inv p cfg env st target_sdk_version
      class_loader is_shared dex_path java_library_path java_permitted_path).2
      st' ns tr h
    rw [hdup] at hnone
    cases hnone
  · intro hcl hini
    cases hc : GetApkOriginFromDexPath dex_path with
    | fatal m => exact absurd hc (hcl m)
    | ok o =>
      rw [Create.eq_def]
      dsimp only
      rw [hc]
      dsimp only
      by_cases hlib : java_library_path.getD "" ≠ "" ∧ st.initialized = false
      · rw [if_pos hlib]
        have hfst : ( InitPublicNamespace p cfg (java_library_path.getD "")).1
            = true := by
          rcases hini with h1 | h2 | h3
          · exact absurd h1 hlib.1
          · rw [hlib.2] at h2
            cases h2
          · exact h3
        rcases hip : InitPublicNamespace p cfg (java_library_path.getD "")
          with ⟨b, m⟩
        rw [hip] at hfst
        simp only at hfst
        subst hfst
        dsimp only
        exact createScope_dup _ _ _ _ _ _ _ _ _ _ v hdup
      · rw [if_neg hlib]
        exact createScope_dup _ _ _ _ _ _ _ _ _ _ v hdup

/-- Witness for the amended C4: with an entry for classloader 3 present
and no bootstrap triggered, the second call aborts on the duplicate. -/
theorem duplicate_registration_fatal_witness :
    Create pA cfgA envR ⟨false, [(3, 9)]⟩ 30 3 false none none none =
      .fatal "There is already a namespace associated with this classloader" :=
  (duplicate_registration_fatal pA cfgA envR ⟨false, [(3, 9)]⟩ 30 3 false
      none none none 9 rfl).2
    (by
      intro m hm
      simp [GetApkOriginFromDexPath] at hm)
    (Or.inl rfl)

/-! ### Claim C6: the vendor ("sphal") link attempt

The claim as stated is refuted: the vendor link is guarded by
`!vendor_public_libraries().empty()` (line 253), so with an empty vendor
public set no vendor link is attempted even on a fully successful
creation.  What does hold: whenever the vendor public set is non-empty
the link is attempted unconditionally — in particular without checking
whether the exported vendor namespace exists (is nil). -/

/-- A configuration whose only non-empty set is the default public one;
in particular the vendor public set is empty. -/
def cfgB : Config :=
  { default_public_libraries := "libc.so"
    llndk_libraries := ""
    extended_public_libraries := ""
    runtime_public_libraries := ""
    vndksp_libraries := ""
    vendor_public_libraries := "" }

/-- Counterexample to C6 as stated: a fully successful `Create` under
`cfgB` attempts only the platform link — no link to the vendor exported
namespace ("sphal") ever happens. -/
theorem vendor_link_counterexample :
    cfgB.vendor_public_libraries = "" ∧
    Create pA cfgB envR ⟨true, []⟩ 30 7 false none none none =
      .ok ⟨true, [(7, 5)]⟩ 5 [("platform", "libc.so")] ∧
    "sphal" ∉ [("platform", "libc.so")].map Prod.fst := by
  refine ⟨rfl, by rfl, ?_⟩
  simp

/-- C6 (amended): after the platform/runtime/vndk steps, the vendor link
step appends exactly one "sphal" link attempt when the vendor public set
is non-empty — regardless of whether an exported vendor namespace exists
(the primitive is handed the possibly-nil handle without a nil check) —
and attempts nothing when the set is empty. -/
theorem vendor_link_attempt (p : Primitive) (cfg : Config) (app_ns : NS)
    (is_bridged : Bool) (tr : Trace) :
    traceOfLink (vendorStep p cfg app_ns is_bridged tr) =
      if cfg.vendor_public_libraries = "" then tr
      else tr ++ [(kVendorNamespaceName, cfg.vendor_public_libraries)] := by
  unfold vendorStep
  by_cases hv : cfg.vendor_public_libraries = ""
  · simp [hv, traceOfLink]
  · rw [if_neg hv, if_neg hv]
    dsimp only
    split <;> rfl

/-! ### Claim C9: idempotence of the preload step

The claim as stated is refuted: `Initialize` is gated on `initialized_`,
but `Initialize` itself never sets that flag (only a successful
`InitPublicNamespace`, called from `Create`, does).  So a second
invocation before any successful bootstrap re-runs every `dlopen`
preload attempt.  What does hold: `Initialize` never changes the state,
and once the flag is set it attempts nothing. -/

/-- Counterexample to C9 as stated: with the flag still unset, a second
invocation repeats the same preload attempt instead of being a no-op. -/
theorem preload_idempotence_counterexample :
    ( Initialize (fun _ => true) cfgB ⟨false, []⟩).1 = ⟨false, []⟩ ∧
    ( Initialize (fun _ => true) cfgB ⟨false, []⟩).2.2 = ["libc.so"] ∧
    ( Initialize (fun _ => true) cfgB
        ( Initialize (fun _ => true) cfgB ⟨false, []⟩).1).2.2 = ["libc.so"] := by
  refine ⟨rfl, ?_, ?_⟩ <;> decide

/-- C9 (amended): `Initialize` never modifies the state, and when the
process-wide `initialized_` flag is already set it is a complete no-op:
no preload is attempted. -/
theorem preload_gated_on_flag (dlopenOk : String → Bool) (cfg : Config)
    (st : LNState) :
    ( Initialize dlopenOk cfg st).1 = st ∧
    (st.initialized = true →
      Initialize dlopenOk cfg st = (st, .done, [])) := by
  constructor
  · unfold Initialize
    split <;> rfl
  · intro h
    unfold Initialize
    rw [if_pos h]

/-- Witness for the amended C9: with the flag set, a concrete invocation
attempts nothing and leaves the state alone. -/
theorem preload_gated_on_flag_witness :
    Initialize (fun _ => true) cfgB ⟨true, []⟩ = (⟨true, []⟩, .done, []) :=
  (preload_gated_on_flag (fun _ => true) cfgB ⟨true, []⟩).2 rfl

end NativeLoader
